import Mathlib

/-
Verification of the core of the Violet 2D platformer (Go + Ebitengine).

Shallow embedding conventions:
* Go float64 values (positions, velocities, probabilities) are modelled as ℚ.
  Every assignment the verified properties depend on is either an exact
  constant store or an integer-times-tile-size product, so the idealisation
  is faithful for those properties.
* Go int values are modelled as ℤ.  Go integer division truncates toward
  zero, which is Int.tdiv; Go float-to-int conversion also truncates toward
  zero, modelled by goTrunc below.
* The world grid ([][]int, row-major) is modelled as a total function
  ℤ → ℤ → ℤ (row, then column); all grid writes in the source are guarded
  by bounds checks, which the embedded operations reproduce.
* Randomness (rand.Float64, rand.Intn) is modelled by passing the drawn
  values as explicit parameters, and Perlin-noise-derived quantities by an
  arbitrary input stream: the world seed is freshly drawn on every run, so
  no property may depend on a particular noise realisation.
-/

namespace Violet

/-- Go conversion int(f): truncation of a float toward zero. -/
def goTrunc (q : ℚ) : ℤ := if 0 ≤ q then ⌊q⌋ else -⌊-q⌋

/-- Go integer division a / b: truncation toward zero. -/
def goDiv (a b : ℤ) : ℤ := Int.tdiv a b

/-! Tile-ID constants from level_gen.go. -/

def ID_Grass : ℤ := 92
def ID_Dirt : ℤ := 193
def ID_Stone : ℤ := 578
def ID_Log : ℤ := 220
def ID_Leaves : ℤ := 296
def ID_Planks : ℤ := 247
def ID_Furnace : ℤ := 596
def ID_OreGold : ℤ := 132
def ID_OreIron : ℤ := 134
def ID_OreCoal : ℤ := 127
def ID_Lava : ℤ := 162
def ID_Sand : ℤ := 582
def ID_Water : ℤ := 142
def ID_Chest : ℤ := 600
def ID_BigChest : ℤ := 602
def ID_Mushroom : ℤ := 191
def ID_Crystal : ℤ := 200
def ID_Flower : ℤ := 291
def ID_SnowGrass : ℤ := 570
def ID_MossyStone : ℤ := 31
def ID_DarkStone : ℤ := 5
def ID_SkyGrass : ℤ := 558

/-! Biome constants from level_gen.go. -/

def BiomePlains : ℤ := 0
def BiomeForest : ℤ := 1
def BiomeMountains : ℤ := 2
def BiomeDesert : ℤ := 3
def BiomeSwamp : ℤ := 4

/-- The world grid and its dimensions (tilemap.go, struct Tilemap).
Grid is indexed row-first, Grid y x, like tm.Grid[y][x] in the source. -/
structure Tilemap where
  Grid : ℤ → ℤ → ℤ
  Cols : ℤ
  Rows : ℤ
  TileSize : ℤ

/-- Tilemap.GetTile (tilemap.go lines 135-140): bounds-checked read, air (0)
outside the grid. -/
def GetTile (tm : Tilemap) (x y : ℤ) : ℤ :=
  if x < 0 ∨ x ≥ tm.Cols ∨ y < 0 ∨ y ≥ tm.Rows then 0
  else tm.Grid y x

/-- Tilemap.IsSolid (tilemap.go lines 122-133).  The receiver is unused in
the source, so it is embedded as a function of the tile ID alone. -/
def IsSolid (tileID : ℤ) : Bool :=
  if tileID = 0 then false
  else if tileID = 220 ∨ tileID = 296 ∨ tileID = ID_Chest ∨ tileID = ID_Water ∨
      tileID = ID_Lava then false
  else true

/-! Player physics constants (player.go lines 9-28).  FallGravityMult is
1.4 in the source; the double nearest to 1.4 differs from 7/5 by under
2^-52, and no verified property depends on its exact value. -/

def Gravity : ℚ := 1/2
def JumpStrength : ℚ := -15
def MaxFallSpeed : ℚ := 14
def PlayerHitboxW : ℚ := 20
def PlayerHitboxH : ℚ := 64
def JumpCutMultiplier : ℚ := 1
def FallGravityMult : ℚ := 7/5

/-- The player fields of Game that the physics tick reads and writes. -/
structure PlayerState where
  x : ℚ
  y : ℚ
  vx : ℚ
  vy : ℚ
  isGrounded : Bool

/-- Vertical integration step of updatePlayer (player.go lines 139-149):
fall-gravity multiplier, gravity, fall-speed cap, position update. -/
def integrateY (s : PlayerState) : PlayerState :=
  let gravMult : ℚ := if s.vy > 0 then FallGravityMult else 1
  let vy1 := s.vy + Gravity * gravMult
  let vy2 := if vy1 > MaxFallSpeed then MaxFallSpeed else vy1
  { s with vy := vy2, y := s.y + vy2 }

/-- Left sample column of the player hitbox (player.go line 305). -/
def leftCol (tm : Tilemap) (s : PlayerState) : ℤ :=
  goTrunc ((s.x - PlayerHitboxW / 2 + 1) / (tm.TileSize : ℚ))

/-- Right sample column of the player hitbox (player.go line 306). -/
def rightCol (tm : Tilemap) (s : PlayerState) : ℤ :=
  goTrunc ((s.x + PlayerHitboxW / 2 - 1) / (tm.TileSize : ℚ))

/-- Feet row of the player: g.y is the bottom of the player
(player.go line 322). -/
def feetRow (tm : Tilemap) (s : PlayerState) : ℤ :=
  goTrunc (s.y / (tm.TileSize : ℚ))

/-- handleCollisionsY (player.go lines 297-341). -/
def handleCollisionsY (tm : Tilemap) (s0 : PlayerState) : PlayerState :=
  let s := { s0 with isGrounded := false }
  let tileSize : ℚ := (tm.TileSize : ℚ)
  let left := leftCol tm s
  let right := rightCol tm s
  if s.vy < 0 then
    let top := goTrunc ((s.y - PlayerHitboxH) / tileSize)
    if IsSolid (GetTile tm left top) || IsSolid (GetTile tm right top) then
      { s with y := ((top : ℚ) + 1) * tileSize + PlayerHitboxH, vy := 0 }
    else s
  else
    let bottom := feetRow tm s
    if IsSolid (GetTile tm left bottom) || IsSolid (GetTile tm right bottom) then
      { s with y := (bottom : ℚ) * tileSize, vy := 0, isGrounded := true }
    else
      let checkBelow := goTrunc ((s.y + 2) / tileSize)
      if (IsSolid (GetTile tm left checkBelow) || IsSolid (GetTile tm right checkBelow)) &&
          decide (s.y > (checkBelow : ℚ) * tileSize - 2) then
        { s with y := (checkBelow : ℚ) * tileSize, vy := 0, isGrounded := true }
      else s

/-- World-bounds clamp at the end of updatePlayer (player.go lines 152-165). -/
def applyWorldBounds (tm : Tilemap) (s0 : PlayerState) : PlayerState :=
  let mapW : ℚ := ((tm.Cols * tm.TileSize : ℤ) : ℚ)
  let mapH : ℚ := ((tm.Rows * tm.TileSize : ℤ) : ℚ)
  let s1 := if s0.x < PlayerHitboxW / 2 then { s0 with x := PlayerHitboxW / 2 } else s0
  let s2 := if s1.x > mapW - PlayerHitboxW / 2 then { s1 with x := mapW - PlayerHitboxW / 2 }
    else s1
  if s2.y > mapH then { s2 with y := mapH, vy := 0, isGrounded := true } else s2

/-- Jump-cut applied when the jump key is released while ascending
(player.go lines 88-91). -/
def jumpCutRelease (vy : ℚ) : ℚ := if vy < 0 then vy * JumpCutMultiplier else vy

/-- One tick of the vertical-velocity pipeline of updatePlayer: the
release-gated jump cut (lines 88-91) followed by gravity integration
(lines 139-147). -/
def vyTick (released : Bool) (vy : ℚ) : ℚ :=
  let v1 := if released then jumpCutRelease vy else vy
  let gravMult : ℚ := if v1 > 0 then FallGravityMult else 1
  let v2 := v1 + Gravity * gravMult
  if v2 > MaxFallSpeed then MaxFallSpeed else v2

/-- The Monster fields read and written by Monster.TakeDamage
(main.go struct Monster). -/
structure Monster where
  Health : ℤ
  InvincibleTimer : ℤ
  KnockbackVX : ℚ
  VY : ℚ

/-- Monster.TakeDamage (main.go lines 1886-1894). -/
def Monster.TakeDamage (m : Monster) (amount : ℤ) (knockbackX : ℚ) : Monster :=
  if m.InvincibleTimer > 0 then m
  else
    { Health := m.Health - amount, InvincibleTimer := 30, KnockbackVX := knockbackX, VY := -4 }

/-- The Game fields read and written by Game.PlayerTakeDamage and the
chest-healing branch of Game.checkChestInteraction. -/
structure GameCombat where
  PlayerHealth : ℤ
  PlayerMaxHealth : ℤ
  PlayerInvincibleTimer : ℤ
  isProtecting : Bool
  vx : ℚ
  vy : ℚ

/-- Game.PlayerTakeDamage (main.go lines 632-652). -/
def PlayerTakeDamage (g : GameCombat) (amount : ℤ) (knockbackX : ℚ) : GameCombat :=
  if g.PlayerInvincibleTimer > 0 then g
  else
    let amount1 := if g.isProtecting then goDiv amount 5 else amount
    let knockback1 := if g.isProtecting then knockbackX / 2 else knockbackX
    let health1 := g.PlayerHealth - amount1
    let health2 := if health1 < 0 then 0 else health1
    { g with PlayerHealth := health2, PlayerInvincibleTimer := 60, vx := knockback1, vy := -5 }

/-- The health update of the chest-healing branch of
Game.checkChestInteraction (main.go lines 505-538): heal +20 when below
maximum, clamped at PlayerMaxHealth. -/
def chestHealHealth (g : GameCombat) : ℤ :=
  if g.PlayerHealth < g.PlayerMaxHealth then
    let h := g.PlayerHealth + 20
    if h > g.PlayerMaxHealth then g.PlayerMaxHealth else h
  else g.PlayerHealth

/-- The restart write g.PlayerHealth = g.PlayerMaxHealth (main.go line 353). -/
def resetHealth (g : GameCombat) : ℤ := g.PlayerMaxHealth

/-- Initial player health (assets.go lines 273-274). -/
def initPlayerHealth : ℤ := 100

/-- Initial player maximum health (assets.go lines 273-274). -/
def initPlayerMaxHealth : ℤ := 100

/-- Depth factor for ore chances (level_gen.go line 258). -/
def depthFactor (Rows yGeo depth : ℤ) : ℚ := (depth : ℚ) / ((Rows - yGeo : ℤ) : ℚ)

/-- Coal chance with depth scaling and biome multiplier (level_gen.go
lines 260, 271-273). -/
def coalChance (Rows yGeo depth biome : ℤ) : ℚ :=
  let c := (10/1000) * (1 + depthFactor Rows yGeo depth)
  if biome = BiomeForest ∨ biome = BiomePlains then c * (115/100) else c

/-- Iron chance with depth scaling and biome multiplier (level_gen.go
lines 261, 265-267). -/
def ironChance (Rows yGeo depth biome : ℤ) : ℚ :=
  let c := (6/1000) * (1 + depthFactor Rows yGeo depth * (1/2))
  if biome = BiomeMountains then c * (14/10) else c

/-- Gold chance with depth scaling and biome multiplier (level_gen.go
lines 262, 268-270). -/
def goldChance (Rows yGeo depth biome : ℤ) : ℚ :=
  let c := (25/10000) * (1 + depthFactor Rows yGeo depth)
  if biome = BiomeDesert then c * (125/100) else c

/-- The ore decision at one stone cell (level_gen.go lines 255-282): a cell
deeper than 2 draws one roll r; the if / else-if chain picks at most one
ore, gold before iron before coal, each gated by its depth minimum. -/
def oreChoice (Rows yGeo depth biome : ℤ) (r : ℚ) : Option ℤ :=
  if depth > 2 then
    if depth > 60 ∧ r < goldChance Rows yGeo depth biome then some ID_OreGold
    else if depth > 30 ∧ r < ironChance Rows yGeo depth biome then some ID_OreIron
    else if r < coalChance Rows yGeo depth biome then some ID_OreCoal
    else none
  else none

/-- Pointwise write to the grid function: tm.Grid[ty][tx] = v. -/
def updateGrid (g : ℤ → ℤ → ℤ) (ty tx v : ℤ) : ℤ → ℤ → ℤ :=
  fun y x => if y = ty ∧ x = tx then v else g y x

/-- One candidate cell write of generateOreVein (level_gen.go lines
591-597): p = (ox, oy) is one randomly offset cell; the write happens only
in bounds (with the 10-row bottom margin) and only onto plain stone or
dark stone. -/
def oreVeinStamp (Cols Rows oreID : ℤ) (g : ℤ → ℤ → ℤ) (p : ℤ × ℤ) : ℤ → ℤ → ℤ :=
  if 0 ≤ p.1 ∧ p.1 < Cols ∧ 0 ≤ p.2 ∧ p.2 < Rows - 10 then
    if g p.2 p.1 = ID_Stone ∨ g p.2 p.1 = ID_DarkStone then updateGrid g p.2 p.1 oreID
    else g
  else g

/-- generateOreVein (level_gen.go lines 588-599); the randomly drawn cells
(x + rand.Intn(3) - 1, y + rand.Intn(3) - 1), size 3 + rand.Intn(5), are
abstracted as the list ps of attempted cells. -/
def generateOreVein (Cols Rows oreID : ℤ) (g : ℤ → ℤ → ℤ) (ps : List (ℤ × ℤ)) : ℤ → ℤ → ℤ :=
  ps.foldl (oreVeinStamp Cols Rows oreID) g

/-- The fixed path-chest columns (level_gen.go line 965). -/
def chestColumns : List ℤ := [115, 140, 170, 200, 235, 270]

/-- One column step of placePathChests (level_gen.go lines 967-978). -/
def placeChestOnColumn (Cols Rows : ℤ) (surfaceHeight : ℤ → ℤ)
    (g : ℤ → ℤ → ℤ) (cx : ℤ) : ℤ → ℤ → ℤ :=
  if cx ≥ Cols then g
  else
    let groundY := surfaceHeight cx
    let chestY := groundY - 1
    if 0 ≤ chestY ∧ chestY < Rows ∧ g chestY cx = 0 ∧ g groundY cx ≠ 0 then
      updateGrid g chestY cx ID_Chest
    else g

/-- placePathChests (level_gen.go lines 963-979). -/
def placePathChests (Cols Rows : ℤ) (surfaceHeight : ℤ → ℤ) (g : ℤ → ℤ → ℤ) : ℤ → ℤ → ℤ :=
  chestColumns.foldl (placeChestOnColumn Cols Rows surfaceHeight) g

/-- World dimensions (level_gen.go lines 64-71): the embedded (WASM)
preset is 200×100 and the native preset is 400×150. -/
def WCols (embedded : Bool) : ℕ := if embedded then 200 else 400

/-- World row count per preset (level_gen.go lines 64-71). -/
def WRows (embedded : Bool) : ℤ := if embedded then 100 else 150

/-- The two-sided slope cap against the previous column
(level_gen.go lines 148-155). -/
def capToPrev (prevH h1 : ℚ) : ℚ :=
  let h2 := if h1 - prevH > 2 then prevH + 2 else h1
  if prevH - h2 > 2 then prevH - 2 else h2

/-- The final vertical clamp into [15, Rows-30] followed by the int()
conversion (level_gen.go lines 160-168). -/
def clampHeight (Rows : ℤ) (height : ℚ) : ℤ :=
  let c1 := if height < 15 then (15 : ℚ) else height
  let c2 := if c1 > (Rows : ℚ) - 30 then (Rows : ℚ) - 30 else c1
  goTrunc c2

/-- The neighbour-smoothing stage for column x (level_gen.go lines
144-158), given the already-computed heights hs of columns 0..x-1 and the
raw pre-smoothing height of column x (the per-biome noise formula with
transition blending, lines 119-142, abstracted as an input). -/
def smoothedHeight (raw : ℚ) (x : ℕ) (hs : List ℤ) : ℚ :=
  if 2 < x then
    let prevH : ℚ := ((hs.getD (x - 1) 0 : ℤ) : ℚ)
    capToPrev prevH (raw * (4/10) + prevH * (3/10) + ((hs.getD (x - 2) 0 : ℤ) : ℚ) * (2/10) +
      ((hs.getD (x - 3) 0 : ℤ) : ℚ) * (1/10))
  else if 0 < x then (raw + ((hs.getD (x - 1) 0 : ℤ) : ℚ)) / 2
  else raw

/-- One column of the surface-height loop: smoothing, slope cap, clamp,
int() store (level_gen.go lines 144-168). -/
def nextHeight (Rows : ℤ) (raw : ℚ) (x : ℕ) (hs : List ℤ) : ℤ :=
  clampHeight Rows (smoothedHeight raw x hs)

/-- The surface-height list for columns 0..n-1 (level_gen.go lines
119-169). -/
def heightList (Rows : ℤ) (raw : ℕ → ℚ) : ℕ → List ℤ
  | 0 => []
  | n + 1 => heightList Rows raw n ++ [nextHeight Rows (raw n) n (heightList Rows raw n)]

/-- The surface height of column x before any window flattening. -/
def heightAt (Rows : ℤ) (raw : ℕ → ℚ) (x : ℕ) : ℤ :=
  (heightList Rows raw (x + 1)).getD x 0

/-- Sum of n consecutive pre-flatten column heights starting at column lo
(the spawn-flatten accumulation, level_gen.go lines 181-186). -/
def sumHeights (Rows : ℤ) (raw : ℕ → ℚ) : ℕ → ℕ → ℤ
  | _, 0 => 0
  | lo, n + 1 => heightAt Rows raw lo + sumHeights Rows raw (lo + 1) n

/-- The spawn-window mean (level_gen.go lines 171-192).  For both presets
Cols > 141, so the window is exactly columns 80..140 with 61 columns. -/
def spawnAvg (Rows : ℤ) (raw : ℕ → ℚ) : ℤ := goDiv (sumHeights Rows raw 80 61) 61

/-- The height field after the spawn-zone flattening
(level_gen.go lines 171-192). -/
def heightAfterSpawn (Rows : ℤ) (raw : ℕ → ℚ) (x : ℕ) : ℤ :=
  if 80 ≤ x ∧ x ≤ 140 then spawnAvg Rows raw else heightAt Rows raw x

/-- The chamber anchor column (level_gen.go lines 882-885). -/
def chamberX (embedded : Bool) : ℕ :=
  if 300 ≥ WCols embedded - 40 then WCols embedded - 50 else 300

/-- Sum of n consecutive post-spawn-flatten heights from column lo (the
chamber average accumulation, level_gen.go lines 896-900). -/
def sumAfterSpawn (Rows : ℤ) (raw : ℕ → ℚ) : ℕ → ℕ → ℤ
  | _, 0 => 0
  | lo, n + 1 => heightAfterSpawn Rows raw lo + sumAfterSpawn Rows raw (lo + 1) n

/-- The chamber window mean (level_gen.go lines 896-900): for both presets
the 40-column window lies inside the grid, so exactly 40 addends precede
the division by chamberWidth = 40. -/
def chamberAvg (embedded : Bool) (raw : ℕ → ℚ) : ℤ :=
  goDiv (sumAfterSpawn (WRows embedded) raw (chamberX embedded) 40) 40

/-- The surface height of column x after GenerateTerrariaWorld finishes:
the height field of lines 119-192 with the chamber window flattened by
generateMountainChamber (level_gen.go lines 895-905). -/
def finalHeight (embedded : Bool) (raw : ℕ → ℚ) (x : ℕ) : ℤ :=
  if chamberX embedded ≤ x ∧ x < chamberX embedded + 40 then chamberAvg embedded raw
  else heightAfterSpawn (WRows embedded) raw x

/-! Theorems. -/

/-- Claim C1: for every coordinate pair (x,y) outside the grid range
[0,Cols)×[0,Rows), Tilemap.GetTile(x,y) returns 0 (air), IsSolid applied to
that result returns false, and GetTile is total on all integer inputs. -/
theorem getTile_out_of_range (tm : Tilemap) (x y : ℤ)
    (h : x < 0 ∨ x ≥ tm.Cols ∨ y < 0 ∨ y ≥ tm.Rows) :
    GetTile tm x y = 0 ∧ IsSolid (GetTile tm x y) = false := by
  have hg : GetTile tm x y = 0 := by
    unfold GetTile
    exact if_pos h
  refine ⟨hg, ?_⟩
  rw [hg]
  rfl

/-- Witness for C1: a concrete 10×5 all-stone tilemap queried at (-1, 0). -/
theorem getTile_out_of_range_witness :
    GetTile ⟨fun _ _ => ID_Stone, 10, 5, 32⟩ (-1) 0 = 0 ∧
      IsSolid (GetTile ⟨fun _ _ => ID_Stone, 10, 5, 32⟩ (-1) 0) = false :=
  getTile_out_of_range ⟨fun _ _ => ID_Stone, 10, 5, 32⟩ (-1) 0 (by left; decide)

/-- After vertical integration a downward-moving player keeps a strictly
positive vertical velocity. -/
theorem integrateY_vy_pos (s : PlayerState) (h : 0 < s.vy) : 0 < (integrateY s).vy := by
  unfold integrateY Gravity FallGravityMult MaxFallSpeed
  dsimp only
  split <;> split <;> linarith

/-- Claim C2: a player with downward velocity whose feet row after vertical
integration samples a solid tile ends the Y-collision resolution with
vy = 0, grounded, and y snapped exactly to the top of that tile row. -/
theorem landing_snaps_to_tile_top (tm : Tilemap) (s : PlayerState)
    (hvy : 0 < s.vy)
    (hsolid :
      IsSolid (GetTile tm (leftCol tm (integrateY s)) (feetRow tm (integrateY s))) = true ∨
      IsSolid (GetTile tm (rightCol tm (integrateY s)) (feetRow tm (integrateY s))) = true) :
    (handleCollisionsY tm (integrateY s)).vy = 0 ∧
      (handleCollisionsY tm (integrateY s)).isGrounded = true ∧
      (handleCollisionsY tm (integrateY s)).y =
        ((feetRow tm (integrateY s) : ℤ) : ℚ) * (tm.TileSize : ℚ) := by
  have hpos : 0 < (integrateY s).vy := integrateY_vy_pos s hvy
  have hcond :
      (IsSolid (GetTile tm (leftCol tm (integrateY s)) (feetRow tm (integrateY s))) ||
        IsSolid (GetTile tm (rightCol tm (integrateY s)) (feetRow tm (integrateY s)))) = true := by
    rcases hsolid with h | h <;> simp [h]
  unfold handleCollisionsY
  dsimp only
  rw [if_neg (by simp only [not_lt]; exact le_of_lt hpos)]
  simp only [feetRow, leftCol, rightCol] at hcond ⊢
  rw [if_pos hcond]
  exact ⟨rfl, rfl, rfl⟩

/-- Witness for C2: a player at x = 100, y = 95 falling with vy = 5 over an
all-stone 10×10 grid with 32-pixel tiles lands snapped to the tile top. -/
theorem landing_snaps_to_tile_top_witness :
    0 < (⟨100, 95, 0, 5, false⟩ : PlayerState).vy ∧
      ((handleCollisionsY ⟨fun _ _ => ID_Stone, 10, 10, 32⟩
          (integrateY ⟨100, 95, 0, 5, false⟩)).vy = 0 ∧
        (handleCollisionsY ⟨fun _ _ => ID_Stone, 10, 10, 32⟩
          (integrateY ⟨100, 95, 0, 5, false⟩)).isGrounded = true ∧
        (handleCollisionsY ⟨fun _ _ => ID_Stone, 10, 10, 32⟩
          (integrateY ⟨100, 95, 0, 5, false⟩)).y =
          ((feetRow ⟨fun _ _ => ID_Stone, 10, 10, 32⟩
            (integrateY ⟨100, 95, 0, 5, false⟩) : ℤ) : ℚ) *
            (((⟨fun _ _ => ID_Stone, 10, 10, 32⟩ : Tilemap).TileSize : ℤ) : ℚ)) :=
  ⟨by norm_num,
    landing_snaps_to_tile_top ⟨fun _ _ => ID_Stone, 10, 10, 32⟩ ⟨100, 95, 0, 5, false⟩
      (by norm_num)
      (Or.inl (by
        norm_num [integrateY, feetRow, leftCol, goTrunc, GetTile, IsSolid, Gravity,
          FallGravityMult, MaxFallSpeed, PlayerHitboxW, ID_Stone, ID_Chest, ID_Water, ID_Lava]))⟩

/-- Claim C10: if after the physics tick the player's y exceeds the map's
pixel height, the world-bounds clamp of updatePlayer sets y exactly to the
map height, zeroes vy, and grounds the player; x ends inside the map's
horizontal bounds. -/
theorem fall_out_bottom_clamped (tm : Tilemap) (s : PlayerState)
    (hW : (20 : ℤ) ≤ tm.Cols * tm.TileSize)
    (hy : ((tm.Rows * tm.TileSize : ℤ) : ℚ) < s.y) :
    (applyWorldBounds tm s).y = ((tm.Rows * tm.TileSize : ℤ) : ℚ) ∧
      (applyWorldBounds tm s).vy = 0 ∧
      (applyWorldBounds tm s).isGrounded = true ∧
      PlayerHitboxW / 2 ≤ (applyWorldBounds tm s).x ∧
      (applyWorldBounds tm s).x ≤ ((tm.Cols * tm.TileSize : ℤ) : ℚ) - PlayerHitboxW / 2 := by
  have hW' : (20 : ℚ) ≤ ((tm.Cols * tm.TileSize : ℤ) : ℚ) := by exact_mod_cast hW
  unfold applyWorldBounds PlayerHitboxW
  dsimp only
  split_ifs <;> (refine ⟨rfl, rfl, rfl, ?_, ?_⟩ <;> (try dsimp only at *) <;> linarith)

/-- Witness for C10: a 10×10, 32-pixel-tile map and a player fallen to
y = 400 > 320 is clamped to the bottom boundary. -/
theorem fall_out_bottom_clamped_witness :
    (20 : ℤ) ≤ (⟨fun _ _ => 0, 10, 10, 32⟩ : Tilemap).Cols *
        (⟨fun _ _ => 0, 10, 10, 32⟩ : Tilemap).TileSize ∧
      ((applyWorldBounds ⟨fun _ _ => 0, 10, 10, 32⟩ ⟨100, 400, 0, 14, false⟩).y =
          ((((⟨fun _ _ => 0, 10, 10, 32⟩ : Tilemap).Rows *
            (⟨fun _ _ => 0, 10, 10, 32⟩ : Tilemap).TileSize : ℤ)) : ℚ) ∧
        (applyWorldBounds ⟨fun _ _ => 0, 10, 10, 32⟩ ⟨100, 400, 0, 14, false⟩).vy = 0 ∧
        (applyWorldBounds ⟨fun _ _ => 0, 10, 10, 32⟩ ⟨100, 400, 0, 14, false⟩).isGrounded = true ∧
        PlayerHitboxW / 2 ≤ (applyWorldBounds ⟨fun _ _ => 0, 10, 10, 32⟩
          ⟨100, 400, 0, 14, false⟩).x ∧
        (applyWorldBounds ⟨fun _ _ => 0, 10, 10, 32⟩ ⟨100, 400, 0, 14, false⟩).x ≤
          ((((⟨fun _ _ => 0, 10, 10, 32⟩ : Tilemap).Cols *
            (⟨fun _ _ => 0, 10, 10, 32⟩ : Tilemap).TileSize : ℤ)) : ℚ) - PlayerHitboxW / 2) :=
  ⟨by decide,
    fall_out_bottom_clamped ⟨fun _ _ => 0, 10, 10, 32⟩ ⟨100, 400, 0, 14, false⟩
      (by decide) (by norm_num)⟩

/-- Counterexample for C5: the jump-cut multiplier is 1.0 in the source
(player.go line 24), so releasing the jump key while ascending leaves the
upward velocity unchanged.  Two concrete runs from a fresh jump that differ
only in when the jump key is released (tick 1 versus tick 3, both while
ascending) end with identical vertical velocity. -/
theorem jumpCut_release_has_no_effect :
    jumpCutRelease JumpStrength = JumpStrength ∧
      vyTick false (vyTick false (vyTick true JumpStrength)) =
        vyTick true (vyTick false (vyTick false JumpStrength)) := by
  norm_num [jumpCutRelease, vyTick, JumpStrength, JumpCutMultiplier, Gravity,
    FallGravityMult, MaxFallSpeed]

/-- Claim C5 amended: releasing the jump key while still ascending
multiplies vy by JumpCutMultiplier, which the source sets to 1.0, so the
velocity is left unchanged and jump height does not depend on the release
time. -/
theorem jumpCut_release_identity (vy : ℚ) (h : vy < 0) : jumpCutRelease vy = vy := by
  unfold jumpCutRelease JumpCutMultiplier
  rw [if_pos h, mul_one]

/-- Witness for amended C5: releasing at vy = -15 keeps vy = -15. -/
theorem jumpCut_release_identity_witness :
    (-15 : ℚ) < 0 ∧ jumpCutRelease (-15) = -15 :=
  ⟨by norm_num, jumpCut_release_identity (-15) (by norm_num)⟩

/-- Claim C3: damage application is a complete no-op while the actor's
invincibility timer is positive; otherwise health drops by the damage
amount, a knockback impulse is written to velocity, and the timer
restarts, so a second hit within the window leaves the state of the first
hit unchanged.  Stated for both the monster and the player. -/
theorem damage_gated_by_invincibility (m : Monster) (g : GameCombat)
    (amount amount2 : ℤ) (k k2 : ℚ) :
    (0 < m.InvincibleTimer → m.TakeDamage amount k = m) ∧
      (¬ 0 < m.InvincibleTimer →
        (m.TakeDamage amount k).Health = m.Health - amount ∧
          (m.TakeDamage amount k).InvincibleTimer = 30 ∧
          (m.TakeDamage amount k).KnockbackVX = k ∧
          (m.TakeDamage amount k).VY = -4) ∧
      (¬ 0 < m.InvincibleTimer →
        (m.TakeDamage amount k).TakeDamage amount2 k2 = m.TakeDamage amount k) ∧
      (0 < g.PlayerInvincibleTimer → PlayerTakeDamage g amount k = g) ∧
      (¬ 0 < g.PlayerInvincibleTimer → g.isProtecting = false →
        (PlayerTakeDamage g amount k).PlayerHealth =
            (if g.PlayerHealth - amount < 0 then 0 else g.PlayerHealth - amount) ∧
          (PlayerTakeDamage g amount k).PlayerInvincibleTimer = 60 ∧
          (PlayerTakeDamage g amount k).vx = k ∧
          (PlayerTakeDamage g amount k).vy = -5) ∧
      (¬ 0 < g.PlayerInvincibleTimer →
        PlayerTakeDamage (PlayerTakeDamage g amount k) amount2 k2 =
          PlayerTakeDamage g amount k) := by
  unfold Monster.TakeDamage PlayerTakeDamage
  refine ⟨fun h => if_pos h, fun h => ?_, fun h => ?_, fun h => if_pos h,
    fun h hprot => ?_, fun h => ?_⟩
  · rw [if_neg h]
    exact ⟨rfl, rfl, rfl, rfl⟩
  · rw [if_neg h]
    dsimp only
    rw [if_pos (by norm_num : (0 : ℤ) < 30)]
  · rw [if_neg h]
    dsimp only
    rw [hprot]
    simp
  · rw [if_neg h]
    dsimp only
    rw [if_pos (by norm_num : (0 : ℤ) < 60)]

/-- Witness for C3: a monster with health 20 and no invincibility hit twice
for 10 within the 30-tick window ends at health 10, not 0. -/
theorem damage_gated_by_invincibility_witness :
    ¬ (0 : ℤ) < (⟨20, 0, 0, 0⟩ : Monster).InvincibleTimer ∧
      ((⟨20, 0, 0, 0⟩ : Monster).TakeDamage 10 3).TakeDamage 10 3 =
        (⟨20, 0, 0, 0⟩ : Monster).TakeDamage 10 3 ∧
      (((⟨20, 0, 0, 0⟩ : Monster).TakeDamage 10 3).TakeDamage 10 3).Health = 10 := by
  refine ⟨by decide, (damage_gated_by_invincibility ⟨20, 0, 0, 0⟩
    ⟨100, 100, 0, false, 0, 0⟩ 10 10 3 3).2.2.1 (by decide), ?_⟩
  rw [(damage_gated_by_invincibility ⟨20, 0, 0, 0⟩
    ⟨100, 100, 0, false, 0, 0⟩ 10 10 3 3).2.2.1 (by decide)]
  rfl

/-- Claim C9: every operation writing PlayerHealth keeps it inside
[0, PlayerMaxHealth]: damage clamps at 0 from below, chest healing clamps
at PlayerMaxHealth from above, restart sets it to the maximum, and the
initial value is the maximum. -/
theorem player_health_bounds (g : GameCombat) (amount : ℤ) (k : ℚ)
    (hmax : 0 ≤ g.PlayerMaxHealth)
    (h0 : 0 ≤ g.PlayerHealth) (h1 : g.PlayerHealth ≤ g.PlayerMaxHealth)
    (hamt : 0 ≤ amount) :
    (0 ≤ (PlayerTakeDamage g amount k).PlayerHealth ∧
        (PlayerTakeDamage g amount k).PlayerHealth ≤ g.PlayerMaxHealth) ∧
      (0 ≤ chestHealHealth g ∧ chestHealHealth g ≤ g.PlayerMaxHealth) ∧
      (0 ≤ resetHealth g ∧ resetHealth g ≤ g.PlayerMaxHealth) ∧
      (0 ≤ initPlayerHealth ∧ initPlayerHealth ≤ initPlayerMaxHealth) := by
  have hdiv : 0 ≤ goDiv amount 5 := Int.tdiv_nonneg hamt (by norm_num)
  unfold PlayerTakeDamage chestHealHealth resetHealth initPlayerHealth initPlayerMaxHealth
  refine ⟨?_, ?_, ⟨hmax, le_refl _⟩, by norm_num⟩
  · dsimp only
    split_ifs <;> (try dsimp only) <;> constructor <;> linarith
  · dsimp only
    split_ifs <;> (try dsimp only) <;> constructor <;> linarith

/-- Witness for C9: a player at 50 of 100 health taking 70 damage stays in
bounds, as do healing, restart and the initial values. -/
theorem player_health_bounds_witness :
    (0 : ℤ) ≤ (⟨50, 100, 0, false, 0, 0⟩ : GameCombat).PlayerMaxHealth ∧
      (0 : ℤ) ≤ (⟨50, 100, 0, false, 0, 0⟩ : GameCombat).PlayerHealth ∧
      (⟨50, 100, 0, false, 0, 0⟩ : GameCombat).PlayerHealth ≤
        (⟨50, 100, 0, false, 0, 0⟩ : GameCombat).PlayerMaxHealth ∧
      (0 : ℤ) ≤ 70 ∧
      ((0 ≤ (PlayerTakeDamage ⟨50, 100, 0, false, 0, 0⟩ 70 0).PlayerHealth ∧
          (PlayerTakeDamage ⟨50, 100, 0, false, 0, 0⟩ 70 0).PlayerHealth ≤
            (⟨50, 100, 0, false, 0, 0⟩ : GameCombat).PlayerMaxHealth) ∧
        (0 ≤ chestHealHealth ⟨50, 100, 0, false, 0, 0⟩ ∧
          chestHealHealth ⟨50, 100, 0, false, 0, 0⟩ ≤
            (⟨50, 100, 0, false, 0, 0⟩ : GameCombat).PlayerMaxHealth) ∧
        (0 ≤ resetHealth ⟨50, 100, 0, false, 0, 0⟩ ∧
          resetHealth ⟨50, 100, 0, false, 0, 0⟩ ≤
            (⟨50, 100, 0, false, 0, 0⟩ : GameCombat).PlayerMaxHealth) ∧
        (0 ≤ initPlayerHealth ∧ initPlayerHealth ≤ initPlayerMaxHealth)) :=
  ⟨by decide, by decide, by decide, by decide,
    player_health_bounds ⟨50, 100, 0, false, 0, 0⟩ 70 0
      (by decide) (by decide) (by decide) (by decide)⟩

/-- Claim C6: at every stone-layer cell the single roll r chooses at most
one ore kind, in priority order gold before iron before coal, with gold
only at depth > 60, iron only at depth > 30, coal only at depth > 2. -/
theorem ore_single_roll_priority (Rows yGeo depth biome : ℤ) (r : ℚ) :
    (oreChoice Rows yGeo depth biome r = some ID_OreGold →
        depth > 60 ∧ r < goldChance Rows yGeo depth biome) ∧
      (oreChoice Rows yGeo depth biome r = some ID_OreIron →
        (depth > 30 ∧ r < ironChance Rows yGeo depth biome) ∧
          ¬(depth > 60 ∧ r < goldChance Rows yGeo depth biome)) ∧
      (oreChoice Rows yGeo depth biome r = some ID_OreCoal →
        (depth > 2 ∧ r < coalChance Rows yGeo depth biome) ∧
          ¬(depth > 60 ∧ r < goldChance Rows yGeo depth biome) ∧
          ¬(depth > 30 ∧ r < ironChance Rows yGeo depth biome)) ∧
      (∀ o1 o2 : ℤ, oreChoice Rows yGeo depth biome r = some o1 →
        oreChoice Rows yGeo depth biome r = some o2 → o1 = o2) := by
  unfold oreChoice
  split_ifs with h1 h2 h3 h4 <;>
    refine ⟨fun h => ?_, fun h => ?_, fun h => ?_, fun o1 o2 e1 e2 => ?_⟩ <;>
      simp_all [ID_OreGold, ID_OreIron, ID_OreCoal]

/-- Witness for C6: a 150-row world, surface at 55, depth 70, plains biome,
roll 0 seeds gold, and the theorem yields the gold depth gate. -/
theorem ore_single_roll_priority_witness :
    (70 : ℤ) > 60 ∧ (0 : ℚ) < goldChance 150 55 70 0 := by
  have h : oreChoice 150 55 70 0 0 = some ID_OreGold := by
    norm_num [oreChoice, goldChance, depthFactor, BiomeDesert]
  exact (ore_single_roll_priority 150 55 70 0 0).1 h

/-- Claim C7: generateOreVein only ever overwrites cells currently holding
plain stone or dark stone; any cell holding any other value is unchanged,
whatever cells the random offsets picked. -/
theorem oreVein_leaves_non_stone_unchanged (Cols Rows oreID : ℤ) (g : ℤ → ℤ → ℤ)
    (ps : List (ℤ × ℤ)) (y x : ℤ)
    (hs : g y x ≠ ID_Stone) (hd : g y x ≠ ID_DarkStone) :
    generateOreVein Cols Rows oreID g ps y x = g y x := by
  induction ps generalizing g with
  | nil => rfl
  | cons p ps ih =>
    have hstep : oreVeinStamp Cols Rows oreID g p y x = g y x := by
      unfold oreVeinStamp
      split_ifs with h1 h2
      · unfold updateGrid
        split_ifs with h3
        · rcases h3 with ⟨hy, hx⟩
          subst hy
          subst hx
          rcases h2 with h2 | h2
          · exact absurd h2 hs
          · exact absurd h2 hd
        · rfl
      · rfl
      · rfl
    unfold generateOreVein at ih ⊢
    rw [List.foldl_cons,
      ih (oreVeinStamp Cols Rows oreID g p) (by rw [hstep]; exact hs) (by rw [hstep]; exact hd),
      hstep]

/-- Witness for C7: a vein of gold attempted on an all-dirt grid leaves the
dirt cell (5,5) unchanged. -/
theorem oreVein_leaves_non_stone_unchanged_witness :
    (fun (_ _ : ℤ) => ID_Dirt) 5 5 ≠ ID_Stone ∧
      (fun (_ _ : ℤ) => ID_Dirt) 5 5 ≠ ID_DarkStone ∧
      generateOreVein 10 20 ID_OreGold (fun _ _ => ID_Dirt) [(5, 5), (6, 5)] 5 5 =
        (fun (_ _ : ℤ) => ID_Dirt) 5 5 :=
  ⟨by decide, by decide,
    oreVein_leaves_non_stone_unchanged 10 20 ID_OreGold (fun _ _ => ID_Dirt) [(5, 5), (6, 5)]
      5 5 (by decide) (by decide)⟩

/-- A path-chest step for column c never changes any other column. -/
theorem placeChest_other_column (Cols Rows : ℤ) (sh : ℤ → ℤ) (g : ℤ → ℤ → ℤ)
    (c y x : ℤ) (hx : x ≠ c) :
    placeChestOnColumn Cols Rows sh g c y x = g y x := by
  unfold placeChestOnColumn
  dsimp only
  split_ifs with h1 h2
  · rfl
  · unfold updateGrid
    split_ifs with h3
    · exact absurd h3.2 hx
    · rfl
  · rfl

/-- A path-chest step for column c reads and writes only column c, so grids
agreeing on column c produce the same column c. -/
theorem placeChest_congr (Cols Rows : ℤ) (sh : ℤ → ℤ) (g g' : ℤ → ℤ → ℤ) (c : ℤ)
    (hagree : ∀ y, g' y c = g y c) (y : ℤ) :
    placeChestOnColumn Cols Rows sh g' c y c = placeChestOnColumn Cols Rows sh g c y c := by
  unfold placeChestOnColumn updateGrid
  dsimp only
  rw [hagree (sh c - 1), hagree (sh c)]
  split_ifs with h1 h2 <;> first | exact hagree y | (dsimp only; rw [hagree y])

/-- Columns not in the processed list are untouched by the chest fold. -/
theorem foldChest_untouched (Cols Rows : ℤ) (sh : ℤ → ℤ) :
    ∀ (cols : List ℤ) (g : ℤ → ℤ → ℤ) (y x : ℤ), x ∉ cols →
      cols.foldl (placeChestOnColumn Cols Rows sh) g y x = g y x := by
  intro cols
  induction cols with
  | nil => intro g y x _; rfl
  | cons c cs ih =>
    intro g y x hx
    rw [List.foldl_cons, ih _ y x (fun hm => hx (List.mem_cons_of_mem _ hm)),
      placeChest_other_column Cols Rows sh g c y x (fun he => hx (he ▸ List.mem_cons_self _ _))]

/-- On a duplicate-free column list, the chest fold acts on column cx
exactly as the single step for cx acting on the initial grid. -/
theorem foldChest_eval (Cols Rows : ℤ) (sh : ℤ → ℤ) :
    ∀ (cols : List ℤ) (g : ℤ → ℤ → ℤ) (cx : ℤ), cx ∈ cols → cols.Nodup →
      ∀ y, cols.foldl (placeChestOnColumn Cols Rows sh) g y cx =
        placeChestOnColumn Cols Rows sh g cx y cx := by
  intro cols
  induction cols with
  | nil => intro g cx hmem _ y; exact absurd hmem (List.not_mem_nil _)
  | cons c cs ih =>
    intro g cx hmem hnd y
    rw [List.foldl_cons]
    rcases List.mem_cons.mp hmem with he | hm
    · subst he
      exact foldChest_untouched Cols Rows sh cs _ y cx (List.nodup_cons.mp hnd).1
    · have hne : cx ≠ c := fun he => (List.nodup_cons.mp hnd).1 (he ▸ hm)
      rw [ih _ cx hm (List.nodup_cons.mp hnd).2 y]
      exact placeChest_congr Cols Rows sh g _ cx
        (fun y' => placeChest_other_column Cols Rows sh g c y' cx hne) y

/-- Counterexample for C8: placePathChests checks that the ground tile is
non-zero, not that it is solid.  With a log (tile 220, non-solid) as the
ground tile of column 115 and air above, a chest is still placed there,
although the claim requires the grid to stay unchanged. -/
theorem pathChest_placed_on_nonsolid_ground :
    IsSolid ((fun (y _x : ℤ) => if y = 50 then ID_Log else 0) 50 115) = false ∧
      (fun (y _x : ℤ) => if y = 50 then ID_Log else 0) 49 115 = 0 ∧
      placePathChests 400 150 (fun _ => 50)
        (fun (y _x : ℤ) => if y = 50 then ID_Log else 0) 49 115 = ID_Chest := by
  refine ⟨by decide, by decide, ?_⟩
  decide

/-- Claim C8 amended: for each in-grid column of the fixed path-chest list,
a chest is placed one tile above the surface height exactly when that
position is inside the rows, holds air, and the ground tile directly below
is non-zero (any non-air tile, solid or not); at every other cell of that
column the grid is unchanged. -/
theorem pathChests_place_iff_air_above_nonzero_ground (Cols Rows : ℤ) (sh : ℤ → ℤ)
    (g : ℤ → ℤ → ℤ) (cx : ℤ) (hmem : cx ∈ chestColumns) (hcx : cx < Cols) (y : ℤ) :
    placePathChests Cols Rows sh g y cx =
      if y = sh cx - 1 ∧ 0 ≤ sh cx - 1 ∧ sh cx - 1 < Rows ∧
          g (sh cx - 1) cx = 0 ∧ g (sh cx) cx ≠ 0 then ID_Chest
      else g y cx := by
  unfold placePathChests
  rw [foldChest_eval Cols Rows sh chestColumns g cx hmem (by decide) y]
  unfold placeChestOnColumn updateGrid
  rw [if_neg (not_le.mpr hcx)]
  split_ifs with h1 h2 <;> (try dsimp only) <;> (try split_ifs with h3) <;>
    first | rfl | tauto

/-- Witness for C8 amended: column 115 of a 400-column grid with grass
ground at row 50 and air above gets a chest at row 49. -/
theorem pathChests_place_iff_air_above_nonzero_ground_witness :
    (115 : ℤ) ∈ chestColumns ∧ (115 : ℤ) < 400 ∧
      placePathChests 400 150 (fun _ => 50)
          (fun (y _x : ℤ) => if y = 50 then ID_Grass else 0) 49 115 =
        if (49 : ℤ) = 49 ∧ (0 : ℤ) ≤ 49 ∧ (49 : ℤ) < 150 ∧
            (fun (y _x : ℤ) => if y = 50 then ID_Grass else 0) 49 115 = 0 ∧
            (fun (y _x : ℤ) => if y = 50 then ID_Grass else 0) 50 115 ≠ 0 then ID_Chest
        else (fun (y _x : ℤ) => if y = 50 then ID_Grass else 0) 49 115 :=
  ⟨by decide, by decide,
    pathChests_place_iff_air_above_nonzero_ground 400 150 (fun _ => 50)
      (fun (y _x : ℤ) => if y = 50 then ID_Grass else 0) 115 (by decide) (by decide) 49⟩

/-- goTrunc of a rational between two integer bounds, the lower one
non-negative, lands between the bounds. -/
theorem goTrunc_bounds_of (lo hi : ℤ) (q : ℚ) (hlo : (lo : ℚ) ≤ q) (hhi : q ≤ (hi : ℚ))
    (h0 : 0 ≤ lo) : lo ≤ goTrunc q ∧ goTrunc q ≤ hi := by
  have h0q : (0 : ℚ) ≤ q := le_trans (by exact_mod_cast h0) hlo
  unfold goTrunc
  rw [if_pos h0q]
  refine ⟨Int.le_floor.mpr hlo, ?_⟩
  calc ⌊q⌋ ≤ ⌊(hi : ℚ)⌋ := Int.floor_le_floor hhi
    _ = hi := Int.floor_intCast hi

/-- The vertical clamp stage always lands in [15, Rows-30]. -/
theorem clampHeight_bounds (Rows : ℤ) (h : ℚ) (hR : 45 ≤ Rows) :
    15 ≤ clampHeight Rows h ∧ clampHeight Rows h ≤ Rows - 30 := by
  have hRq : (45 : ℚ) ≤ (Rows : ℚ) := by exact_mod_cast hR
  unfold clampHeight
  dsimp only
  refine goTrunc_bounds_of 15 (Rows - 30) _ ?_ ?_ (by norm_num)
  · push_cast
    split_ifs <;> linarith
  · push_cast
    split_ifs <;> linarith

/-- The slope cap keeps the capped value within 2 of the previous height. -/
theorem capToPrev_near (prevH h1 : ℚ) :
    prevH - 2 ≤ capToPrev prevH h1 ∧ capToPrev prevH h1 ≤ prevH + 2 := by
  unfold capToPrev
  dsimp only
  split_ifs <;> constructor <;> linarith

/-- Clamping a value within 2 of an in-band previous height keeps it
within 2 of that height. -/
theorem clampHeight_near (Rows p : ℤ) (q : ℚ) (hR : 45 ≤ Rows)
    (hq1 : (p : ℚ) - 2 ≤ q) (hq2 : q ≤ (p : ℚ) + 2)
    (hlo : 15 ≤ p) (hhi : p ≤ Rows - 30) :
    p - 2 ≤ clampHeight Rows q ∧ clampHeight Rows q ≤ p + 2 := by
  have hRq : (45 : ℚ) ≤ (Rows : ℚ) := by exact_mod_cast hR
  have hloq : (15 : ℚ) ≤ (p : ℚ) := by exact_mod_cast hlo
  have hhiq : (p : ℚ) ≤ (Rows : ℚ) - 30 := by
    have : ((p : ℤ) : ℚ) ≤ ((Rows - 30 : ℤ) : ℚ) := by exact_mod_cast hhi
    push_cast at this
    linarith
  unfold clampHeight
  dsimp only
  refine goTrunc_bounds_of (p - 2) (p + 2) _ ?_ ?_ (by omega)
  · push_cast
    split_ifs <;> linarith
  · push_cast
    split_ifs <;> linarith

/-- The height list has one entry per generated column. -/
theorem heightList_length (Rows : ℤ) (raw : ℕ → ℚ) (n : ℕ) :
    (heightList Rows raw n).length = n := by
  induction n with
  | zero => rfl
  | succ n ih => simp [heightList, ih]

/-- The recurrence satisfied by the per-column surface height. -/
theorem heightAt_eq (Rows : ℤ) (raw : ℕ → ℚ) (x : ℕ) :
    heightAt Rows raw x = nextHeight Rows (raw x) x (heightList Rows raw x) := by
  have h : heightList Rows raw (x + 1) =
      heightList Rows raw x ++ [nextHeight Rows (raw x) x (heightList Rows raw x)] := rfl
  unfold heightAt
  rw [h, List.getD_append_right _ _ _ _ (le_of_eq (heightList_length Rows raw x)),
    heightList_length]
  simp

/-- Entries of longer height lists agree with the per-column height. -/
theorem heightList_getD (Rows : ℤ) (raw : ℕ → ℚ) :
    ∀ n x, x < n → (heightList Rows raw n).getD x 0 = heightAt Rows raw x := by
  intro n
  induction n with
  | zero => intro x hx; exact absurd hx (Nat.not_lt_zero x)
  | succ n ih =>
    intro x hx
    rcases Nat.lt_succ_iff_lt_or_eq.mp hx with h | h
    · unfold heightList
      rw [List.getD_append _ _ _ _ (by rw [heightList_length]; exact h)]
      exact ih x h
    · subst h
      rfl

/-- Every pre-flatten column height lies in [15, Rows-30]. -/
theorem heightAt_bounds (Rows : ℤ) (raw : ℕ → ℚ) (x : ℕ) (hR : 45 ≤ Rows) :
    15 ≤ heightAt Rows raw x ∧ heightAt Rows raw x ≤ Rows - 30 := by
  rw [heightAt_eq]
  unfold nextHeight
  exact clampHeight_bounds Rows _ hR

/-- From column 3 on, adjacent pre-flatten heights differ by at most 2. -/
theorem heightAt_slope (Rows : ℤ) (raw : ℕ → ℚ) (x : ℕ) (hx : 3 ≤ x) (hR : 45 ≤ Rows) :
    |heightAt Rows raw x - heightAt Rows raw (x - 1)| ≤ 2 := by
  have hprev : (heightList Rows raw x).getD (x - 1) 0 = heightAt Rows raw (x - 1) :=
    heightList_getD Rows raw x (x - 1) (by omega)
  have hb := heightAt_bounds Rows raw (x - 1) hR
  have hcap := capToPrev_near (((heightList Rows raw x).getD (x - 1) 0 : ℤ) : ℚ)
    (raw x * (4/10) + (((heightList Rows raw x).getD (x - 1) 0 : ℤ) : ℚ) * (3/10) +
      (((heightList Rows raw x).getD (x - 2) 0 : ℤ) : ℚ) * (2/10) +
      (((heightList Rows raw x).getD (x - 3) 0 : ℤ) : ℚ) * (1/10))
  have hnear := clampHeight_near Rows ((heightList Rows raw x).getD (x - 1) 0)
    (capToPrev (((heightList Rows raw x).getD (x - 1) 0 : ℤ) : ℚ)
      (raw x * (4/10) + (((heightList Rows raw x).getD (x - 1) 0 : ℤ) : ℚ) * (3/10) +
        (((heightList Rows raw x).getD (x - 2) 0 : ℤ) : ℚ) * (2/10) +
        (((heightList Rows raw x).getD (x - 3) 0 : ℤ) : ℚ) * (1/10)))
    hR hcap.1 hcap.2 (by rw [hprev]; exact hb.1) (by rw [hprev]; exact hb.2)
  rw [heightAt_eq Rows raw x]
  unfold nextHeight smoothedHeight
  rw [if_pos (by omega : 2 < x)]
  dsimp only
  rw [hprev] at hnear
  rw [hprev, abs_le]
  constructor <;> linarith [hnear.1, hnear.2]

/-- Truncating integer division of a sum of n in-band values by n stays in
band. -/
theorem goDiv_bounds (lo hi n s : ℤ) (hn : 0 < n) (h0 : 0 ≤ lo) (hlo : lo * n ≤ s)
    (hhi : s ≤ hi * n) : lo ≤ goDiv s n ∧ goDiv s n ≤ hi := by
  have hs0 : 0 ≤ s := le_trans (by nlinarith) hlo
  unfold goDiv
  rw [Int.tdiv_eq_ediv hs0 (le_of_lt hn)]
  refine ⟨(Int.le_ediv_iff_mul_le hn).mpr hlo, ?_⟩
  have h := Int.ediv_le_ediv hn hhi
  rwa [Int.mul_ediv_cancel _ (ne_of_gt hn)] at h

/-- Sums of pre-flatten heights over n columns are between 15n and
(Rows-30)n. -/
theorem sumHeights_bounds (Rows : ℤ) (raw : ℕ → ℚ) (hR : 45 ≤ Rows) :
    ∀ (n lo : ℕ), 15 * (n : ℤ) ≤ sumHeights Rows raw lo n ∧
      sumHeights Rows raw lo n ≤ (Rows - 30) * (n : ℤ) := by
  intro n
  induction n with
  | zero => intro lo; simp [sumHeights]
  | succ n ih =>
    intro lo
    have hh := heightAt_bounds Rows raw lo hR
    have hsum := ih (lo + 1)
    unfold sumHeights
    push_cast
    constructor <;> nlinarith [hh.1, hh.2, hsum.1, hsum.2]

/-- The spawn-window average height lies in [15, Rows-30]. -/
theorem spawnAvg_bounds (Rows : ℤ) (raw : ℕ → ℚ) (hR : 45 ≤ Rows) :
    15 ≤ spawnAvg Rows raw ∧ spawnAvg Rows raw ≤ Rows - 30 := by
  have hs := sumHeights_bounds Rows raw hR 61 80
  unfold spawnAvg
  exact goDiv_bounds 15 (Rows - 30) 61 _ (by norm_num) (by norm_num)
    (by exact_mod_cast hs.1) (by exact_mod_cast hs.2)

/-- Every post-spawn-flatten column height lies in [15, Rows-30]. -/
theorem heightAfterSpawn_bounds (Rows : ℤ) (raw : ℕ → ℚ) (x : ℕ) (hR : 45 ≤ Rows) :
    15 ≤ heightAfterSpawn Rows raw x ∧ heightAfterSpawn Rows raw x ≤ Rows - 30 := by
  unfold heightAfterSpawn
  split_ifs with h
  · exact spawnAvg_bounds Rows raw hR
  · exact heightAt_bounds Rows raw x hR

/-- Sums of post-spawn-flatten heights over n columns are between 15n and
(Rows-30)n. -/
theorem sumAfterSpawn_bounds (Rows : ℤ) (raw : ℕ → ℚ) (hR : 45 ≤ Rows) :
    ∀ (n lo : ℕ), 15 * (n : ℤ) ≤ sumAfterSpawn Rows raw lo n ∧
      sumAfterSpawn Rows raw lo n ≤ (Rows - 30) * (n : ℤ) := by
  intro n
  induction n with
  | zero => intro lo; simp [sumAfterSpawn]
  | succ n ih =>
    intro lo
    have hh := heightAfterSpawn_bounds Rows raw lo hR
    have hsum := ih (lo + 1)
    unfold sumAfterSpawn
    push_cast
    constructor <;> nlinarith [hh.1, hh.2, hsum.1, hsum.2]

/-- The chamber-window average height lies in [15, Rows-30]. -/
theorem chamberAvg_bounds (embedded : Bool) (raw : ℕ → ℚ) (hR : 45 ≤ WRows embedded) :
    15 ≤ chamberAvg embedded raw ∧ chamberAvg embedded raw ≤ WRows embedded - 30 := by
  have hs := sumAfterSpawn_bounds (WRows embedded) raw hR 40 (chamberX embedded)
  unfold chamberAvg
  exact goDiv_bounds 15 (WRows embedded - 30) 40 _ (by norm_num) (by norm_num)
    (by exact_mod_cast hs.1) (by exact_mod_cast hs.2)

/-- The finished height field lies in [15, Rows-30] at every column. -/
theorem finalHeight_bounds (embedded : Bool) (raw : ℕ → ℚ) (x : ℕ) :
    15 ≤ finalHeight embedded raw x ∧ finalHeight embedded raw x ≤ WRows embedded - 30 := by
  have hR : 45 ≤ WRows embedded := by cases embedded <;> norm_num [WRows]
  unfold finalHeight
  split_ifs with h
  · exact chamberAvg_bounds embedded raw hR
  · exact heightAfterSpawn_bounds (WRows embedded) raw x hR

/-- Counterexample for C4: the slope cap is enforced only from column 3 on;
columns 1 and 2 use the plain two-term average of line 157 with no cap.
With pre-smoothing heights 36 then 58 (a realistic jump at a biome seam in
the first columns, where the transition blending of lines 127-142 does not
yet apply), columns 0 and 1 — both far outside the spawn window 80..140 and
the chamber window — end 11 tiles apart, violating the claimed cap of 2. -/
theorem slope_cap_fails_before_column_three :
    ¬(80 ≤ (0 : ℕ) ∧ (0 : ℕ) ≤ 140) ∧ ¬(80 ≤ (1 : ℕ) ∧ (1 : ℕ) ≤ 140) ∧
      ¬(chamberX true ≤ (0 : ℕ) ∧ (0 : ℕ) < chamberX true + 40) ∧
      ¬(chamberX true ≤ (1 : ℕ) ∧ (1 : ℕ) < chamberX true + 40) ∧
      finalHeight true (fun i => if i = 0 then (36 : ℚ) else 58) 1 -
        finalHeight true (fun i => if i = 0 then (36 : ℚ) else 58) 0 = 11 := by
  refine ⟨by decide, by decide, by decide, by decide, ?_⟩
  have h0 : heightAt (WRows true) (fun i => if i = 0 then (36 : ℚ) else 58) 0 = 36 := by
    rw [heightAt_eq]
    norm_num [nextHeight, smoothedHeight, clampHeight, goTrunc, WRows]
  have h1 : heightAt (WRows true) (fun i => if i = 0 then (36 : ℚ) else 58) 1 = 47 := by
    rw [heightAt_eq]
    have hl : heightList (WRows true) (fun i => if i = 0 then (36 : ℚ) else 58) 1 = [36] := by
      show heightList (WRows true) _ 0 ++ [nextHeight (WRows true) _ 0 _] = [36]
      norm_num [heightList, nextHeight, smoothedHeight, clampHeight, goTrunc, WRows]
    rw [hl]
    norm_num [nextHeight, smoothedHeight, clampHeight, goTrunc, WRows]
  have hfin : ∀ x : ℕ, x < 2 →
      finalHeight true (fun i => if i = 0 then (36 : ℚ) else 58) x =
        heightAt (WRows true) (fun i => if i = 0 then (36 : ℚ) else 58) x := by
    intro x hx
    have hcx : chamberX true = 150 := by decide
    unfold finalHeight heightAfterSpawn
    rw [if_neg (by omega), if_neg (by omega)]
  rw [hfin 0 (by norm_num), hfin 1 (by norm_num), h0, h1]
  decide

/-- Claim C4 amended: every column of the finished height field lies in
[0, Rows); the slope cap of 2 holds for every pair of adjacent columns that
both lie outside the spawn window and the chamber window, from column 3 on
— columns 0-2 are smoothed by the uncapped average of line 157, so the cap
is not guaranteed there. -/
theorem surface_height_bounds_and_slope (embedded : Bool) (raw : ℕ → ℚ) (x : ℕ)
    (hx : x < WCols embedded) :
    (0 ≤ finalHeight embedded raw x ∧ finalHeight embedded raw x < WRows embedded) ∧
      (3 ≤ x →
        ¬(80 ≤ x - 1 ∧ x - 1 ≤ 140) → ¬(80 ≤ x ∧ x ≤ 140) →
        ¬(chamberX embedded ≤ x - 1 ∧ x - 1 < chamberX embedded + 40) →
        ¬(chamberX embedded ≤ x ∧ x < chamberX embedded + 40) →
        |finalHeight embedded raw x - finalHeight embedded raw (x - 1)| ≤ 2) := by
  have hR : 45 ≤ WRows embedded := by cases embedded <;> norm_num [WRows]
  have hb := finalHeight_bounds embedded raw x
  refine ⟨⟨by omega, by omega⟩, fun h3 hs1 hs2 hc1 hc2 => ?_⟩
  unfold finalHeight heightAfterSpawn
  rw [if_neg hc2, if_neg hs2, if_neg hc1, if_neg hs1]
  exact heightAt_slope (WRows embedded) raw x h3 hR

/-- Witness for C4 amended: the native 400-column world with constant
pre-smoothing height 55 at column 50 is in bounds and within the cap of
its left neighbour. -/
theorem surface_height_bounds_and_slope_witness :
    (50 : ℕ) < WCols false ∧
      ((0 ≤ finalHeight false (fun _ => 55) 50 ∧ finalHeight false (fun _ => 55) 50 < WRows false) ∧
        (3 ≤ (50 : ℕ) →
          ¬(80 ≤ (50 : ℕ) - 1 ∧ (50 : ℕ) - 1 ≤ 140) → ¬(80 ≤ (50 : ℕ) ∧ (50 : ℕ) ≤ 140) →
          ¬(chamberX false ≤ (50 : ℕ) - 1 ∧ (50 : ℕ) - 1 < chamberX false + 40) →
          ¬(chamberX false ≤ (50 : ℕ) ∧ (50 : ℕ) < chamberX false + 40) →
          |finalHeight false (fun _ => 55) 50 - finalHeight false (fun _ => 55) 49| ≤ 2)) := by
  constructor
  · decide
  · have h := surface_height_bounds_and_slope false (fun _ => 55) 50 (by decide)
    exact h

end Violet
